import Mathlib

/-!
Verification development for the gohypo repository.

Shallow embedding conventions used throughout this file:

* Tabular, vectorized pandas code is embedded per row: every `Series`
  transformation in `python_data_functions/lead_scoring.py` applies the same
  scalar mapping to each row, so each scoring component becomes a Lean
  function on one row.  Numeric values are `ℚ` (exact real arithmetic in
  place of float64), calendar arithmetic results are `ℤ` day counts.
* A pandas value that may be missing/NaN is `Option _` (`none` = NaN); the
  pandas idioms `.fillna(v)` and `.getD` coincide.
* A computation that raises (for example `.astype(int)` applied to a
  categorical holding NaN, which pandas refuses to convert) is `Option`
  valued with `none` as the exceptional outcome.
* `pandas.cut` over bins that end in `float('inf')` is embedded by
  `pdCutInf` below, keeping pandas' interval conventions: intervals are
  right-closed and left-open (`right=True`), `include_lowest=True` closes
  the very first interval on the left, and a value in no interval yields
  NaN (`none`).
-/

namespace GoHypo

/-- Containment of one character list in another as a contiguous run. -/
def listInfix (pat : List Char) : List Char → Bool
  | [] => pat.isEmpty
  | c :: rest => pat.isPrefixOf (c :: rest) || listInfix pat rest

/-- Python substring test `pat in s` (and `Series.str.contains` for a literal
pattern): containment of the pattern's character list in the subject's. -/
def strContains (s pat : String) : Bool :=
  listInfix pat.data s.data

/-- Membership of any keyword of a `'|'.join(keywords)` regex alternation,
as used with `Series.str.contains`. -/
def containsAny (s : String) (kws : List String) : Bool :=
  kws.any (fun k => strContains s k)

/-- Python `re.sub(r'\D', '', s)`: keep only decimal digits. -/
def pyDigits (s : String) : String :=
  String.mk (s.data.filter Char.isDigit)

/-- Lower-bound test of one `pandas.cut` interval: the first interval is
closed on the left when `include_lowest=True`, otherwise open. -/
def cutLowOk {k : Type} [LinearOrder k] (il : Bool) (lo x : k) : Bool :=
  match il with
  | true => decide (lo ≤ x)
  | false => decide (lo < x)

/-- Shallow embedding of `pandas.cut(x, bins=edges ++ [inf], labels=labs,
right=True, include_lowest=il)` at a single value `x`.  The final edge
`float('inf')` of every call in the source is implicit: the last label's
interval is `(last_edge, ∞]`.  A value left of the first edge falls in no
interval and yields NaN, i.e. `none`. -/
def pdCutInf {k b : Type} [LinearOrder k] (x : k) : Bool → List k → List b → Option b
  | il, lo :: hi :: bins, lab :: labs =>
      if cutLowOk il lo x && decide (x ≤ hi) then some lab
      else pdCutInf x false (hi :: bins) labs
  | il, [lo], [lab] => if cutLowOk il lo x then some lab else none
  | _, _, _ => none

/-- One row of the census table, after the per-field conversions the scorer
itself performs.  Text columns hold `none` for NaN.  `fleet_size` is the
row's value after `pd.to_numeric(..., errors='coerce')` (`none` when missing
or unparseable).  `days_since_registration` is the row's value of
`(pd.Timestamp.now() - pd.to_datetime(add_date, errors='coerce')).dt.days`
(`none` for a missing/invalid date, NaT). -/
structure CensusRow where
  dot_number : Option String
  fleet_size : Option ℚ
  entity_type : Option String
  carrier_operation : Option String
  email : Option String
  phone : Option String
  phy_city : Option String
  phy_state : Option String
  phy_zip : Option String
  cargo_carried : Option String
  days_since_registration : Option ℤ
deriving DecidableEq, Repr

/-- The SMS enrichment fields a census row sees after the left join
`census[['dot_number']].merge(sms_df[...], on='dot_number', how='left')`.
A census row with no SMS match gets a row of all-`none` fields (the join
fills NaN).  Numeric fields are post-`to_numeric(errors='coerce')` values;
`basic_scores` are the six `*_score` BASIC columns. -/
structure SmsRow where
  power_units : Option ℚ
  drivers : Option ℚ
  vmt : Option ℚ
  safety_rating : Option String
  total_inspections : Option ℚ
  basic_scores : List (Option ℚ)
deriving DecidableEq, Repr

/-- The licensing (L&I) enrichment fields after the analogous left join. -/
structure LiRow where
  authority_status : Option String
  bond_status : Option String
  bond_amount : Option ℚ
deriving DecidableEq, Repr

namespace FMCALeadScorer

/-- Fleet-size bins of `_calculate_growth_score`:
`pd.cut(fleet_size, bins=[0,1,5,10,20,50,inf], labels=[0..5],
include_lowest=True).astype(int)`; `none` models the `ValueError` that
`astype(int)` raises on NaN (a negative fleet size falls in no bin). -/
def fleet_scores (fleet : ℚ) : Option ℚ :=
  pdCutInf fleet true [0, 1, 5, 10, 20, 50] [0, 1, 2, 3, 4, 5]

/-- Utilization-ratio bins of `_calculate_growth_score`.  The source divides
floats: `power_units / drivers` with `drivers = 0` is `+inf` for positive
numerators (landing in the top bin `(2, inf]`), and NaN or `-inf`
otherwise, which the subsequent `astype(int)` turns into an error
(`none`). -/
def utilization_scores (power drivers : ℚ) : Option ℚ :=
  if drivers = 0 then
    if 0 < power then some 2 else none
  else
    pdCutInf (power / drivers) true [0, 3/2, 2] [0, 1, 2]

/-- Growth component (`_calculate_growth_score`).  `sms = none` models
`sms_df is None or 'dot_number' not in sms_df.columns`, in which case the
fleet-size bin alone is returned.  Otherwise the merged row's utilization
and mileage bonuses are added and the sum is clipped to at most 5. -/
def growth_score (row : CensusRow) (sms : Option SmsRow) : Option ℚ :=
  match sms with
  | none => fleet_scores (row.fleet_size.getD 0)
  | some s =>
      let power := s.power_units.getD 0
      let driv := s.drivers.getD 1
      let vmtVal := s.vmt.getD 0
      let avg_vmt := vmtVal / (if power = 0 then 1 else power)
      let vmt_sc : ℚ := if 50000 ≤ avg_vmt then 1 else 0
      do
        let f ← fleet_scores (row.fleet_size.getD 0)
        let u ← utilization_scores power driv
        pure (min (f + u + vmt_sc) 5)

/-- Entity-type base of `_calculate_legitimacy_score`: 3, plus 1 when the
lowercased entity type or operation mentions `carrier`, plus 1 when either
mentions `broker`. -/
def entity_base (row : CensusRow) : ℚ :=
  let entity := (row.entity_type.map String.toLower).getD ""
  let oper := (row.carrier_operation.map String.toLower).getD ""
  3 + (if strContains entity "carrier" || strContains oper "carrier" then 1 else 0)
    + (if strContains entity "broker" || strContains oper "broker" then 1 else 0)

/-- Legitimacy component (`_calculate_legitimacy_score`).  `li = none`
models `li_df is None or 'dot_number' not in li_df.columns`; then the base
alone is clipped to `[0, 5]`.  Otherwise authority and bond adjustments
from the merged row are added before the clip. -/
def legitimacy_score (row : CensusRow) (li : Option LiRow) : ℚ :=
  match li with
  | none => min (max (entity_base row) 0) 5
  | some l =>
      let auth := (l.authority_status.map String.toLower).getD ""
      let authority : ℚ :=
        (if strContains auth "active" then 1 else 0)
          - (if strContains auth "revoked" || strContains auth "suspended" then 1 else 0) * 2
      let bondTxt := (l.bond_status.map String.toLower).getD ""
      let bond : ℚ :=
        (if strContains bondTxt "active" || strContains bondTxt "valid" then 1 else 0)
          + (if (75000 : ℚ) ≤ l.bond_amount.getD 0 then 1 else 0)
      min (max (entity_base row + authority + bond) 0) 5

/-- Safety component (`_calculate_safety_score`): base 3 when the SMS table
is absent; otherwise rating, BASIC-mean and inspection-count bonuses are
added and the total is clipped to at most 5.  The BASIC mean skips NaN
entries (pandas `mean(axis=1)`) and an all-NaN mean is filled with 0. -/
def safety_score (_row : CensusRow) (sms : Option SmsRow) : Option ℚ :=
  match sms with
  | none => some 3
  | some s =>
      let rating := (s.safety_rating.map String.toLower).getD ""
      let ratingSc : ℚ :=
        (if strContains rating "unsatisfactory" then 1 else 0) * 2
          + (if strContains rating "conditional" then 1 else 0)
      let present := s.basic_scores.filterMap id
      let basicMean : ℚ := if present = [] then 0 else present.sum / (present.length : ℚ)
      let basicSc : ℚ :=
        (if 3 ≤ basicMean then 1 else 0)
          + (if 2 ≤ basicMean ∧ basicMean < 3 then 1 else 0) * (1/2)
      do
        let insp ← pdCutInf (s.total_inspections.getD 0) true [0, 20, 50] [0, 1/2, 1]
        pure (min (3 + ratingSc + basicSc + insp) 5)

/-- Email pattern of `_calculate_contact_score`: the regular expression
`^[^@]+@[^@]+\.[^@]+$` — a nonempty run of non-`@` characters, one `@`,
then a remainder free of `@` that contains a dot placed neither first nor
last (so a nonempty run sits on each side of it). -/
def email_valid (s : String) : Bool :=
  let cs := s.data
  let locp := cs.takeWhile (fun c => c != '@')
  match cs.drop locp.length with
  | [] => false
  | _ :: domain =>
      !locp.isEmpty && !domain.contains ('@') && (domain.drop 1).dropLast.contains ('.')

/-- Contact-quality component (`_calculate_contact_score`): email bonus,
phone-digit-count bin, and a point per nonblank physical-address field,
clipped to at most 5. -/
def contact_score (row : CensusRow) : Option ℚ :=
  let email := (row.email.map String.trim).getD ""
  let ev := email_valid email
  let emailSc : ℚ :=
    (if ev then 1 else 0) * 2
      + (if ev && email.endsWith ".com" then 1 else 0) * (1/2)
  let phoneDigits := (row.phone.map pyDigits).getD ""
  let addrFields := [row.phy_city, row.phy_state, row.phy_zip]
  let addr : ℚ := (addrFields.countP (fun f => f.isSome && ((f.getD "").trim != "")) : ℚ)
  do
    let ph ← pdCutInf ((phoneDigits.length : ℚ)) true [0, 7, 10] [0, 1, 2]
    pure (min (emailSc + ph + addr) 5)

/-- High-value cargo keyword groups of `FMCALeadScorer.__init__`. -/
def high_value_cargo : List (String × List String) :=
  [("hazardous_materials", ["hazmat", "hazardous", "chemical", "explosive", "radioactive"]),
   ("specialized", ["refrigerated", "reefer", "temperature_controlled", "oversized", "heavy_haul"]),
   ("valuable", ["household_goods", "electronics", "pharmaceutical", "automotive", "machinery"]),
   ("time_sensitive", ["perishable", "fresh_produce", "dairy", "meat", "bakery"])]

/-- Per-category points of the `high_value_cargo` loop in
`_calculate_specialization_score`. -/
def category_bonus (category : String) (matched : Bool) : ℚ :=
  if matched then
    if category = "hazardous_materials" then 2
    else if category = "specialized" then 3/2
    else if category = "valuable" || category = "time_sensitive" then 1
    else 0
  else 0

/-- Specialization component (`_calculate_specialization_score`): base 1
plus cargo-keyword bonuses, clipped to at most 5. -/
def specialization_score (row : CensusRow) : ℚ :=
  let cargo := (row.cargo_carried.map String.toLower).getD ""
  let catSc : ℚ :=
    (high_value_cargo.map (fun cw => category_bonus cw.1 (containsAny cargo cw.2))).sum
  let bonus : ℚ :=
    (if strContains cargo "intermodal" then 1 else 0) * (1/2)
      + (if strContains cargo "international" then 1 else 0) * (1/2)
  min (1 + catSc + bonus) 5

/-- Recency component (`_calculate_recency_score`): days since registration
binned into `[0,30], (30,90], (90,365], (365,730], (730,inf]` with scores
5,4,3,2,1; a missing date, or a day count in no bin, is filled with the
neutral 3 (the cut result is taken `astype(float)`, so NaN survives to the
final `fillna(3)`). -/
def recency_score (row : CensusRow) : ℚ :=
  match row.days_since_registration with
  | none => 3
  | some d => (pdCutInf d true [0, 30, 90, 365, 730] [(5 : ℚ), 4, 3, 2, 1]).getD 3

/-- Scoring weights of `FMCALeadScorer.__init__`, in dict insertion order. -/
def scoring_weights : List (String × ℚ) :=
  [("growth_potential", 0.25), ("legitimacy", 0.20), ("safety_compliance", 0.20),
   ("contact_quality", 0.15), ("specialization_value", 0.10), ("company_recency", 0.10)]

/-- Component dictionary of `_calculate_all_components`, keyed as in the
source; an unknown key is a `KeyError` (`none`). -/
def component_score (row : CensusRow) (sms : Option SmsRow) (li : Option LiRow) :
    String → Option ℚ
  | "growth_potential" => growth_score row sms
  | "legitimacy" => some (legitimacy_score row li)
  | "safety_compliance" => safety_score row sms
  | "contact_quality" => contact_score row
  | "specialization_value" => some (specialization_score row)
  | "company_recency" => some (recency_score row)
  | _ => none

/-- Composite score of `calculate_comprehensive_score`:
`sum(component_scores[c] * w for c, w in scoring_weights.items())`,
folded left with Python's `sum` starting from 0. -/
def composite_score (row : CensusRow) (sms : Option SmsRow) (li : Option LiRow) : Option ℚ :=
  scoring_weights.foldl
    (fun acc cw => do
      let a ← acc
      let c ← component_score row sms li cw.1
      pure (a + c * cw.2))
    (some 0)

/-- Tier assignment of `calculate_comprehensive_score`:
`pd.cut(composite, bins=[0, 2, 3.5, 5, inf], labels=[...])` with pandas'
default `right=True` and no `include_lowest`, so every interval is open on
the left and closed on the right and a composite of exactly 0 falls in no
bin (NaN). -/
def lead_tier (x : ℚ) : Option String :=
  pdCutInf x false [0, 2, 7/2, 5]
    ["Low Priority", "Medium Priority", "High Priority", "Top Tier"]

/-- One output row of `calculate_comprehensive_score`: the census row plus
the two derived columns the function assigns, `composite_score` and
`lead_tier`.  The tier of a NaN composite is NaN. -/
structure ScoredRow where
  row : CensusRow
  composite : Option ℚ
  tier : Option String
deriving DecidableEq, Repr

/-- Derived columns for one census row, as assigned by
`calculate_comprehensive_score` before the sort. -/
def scoreRow (sms : Option SmsRow) (li : Option LiRow) (row : CensusRow) : ScoredRow :=
  let comp := composite_score row sms li
  ⟨row, comp, comp.bind lead_tier⟩

/-- Scored table before sorting: the same per-field mapping applied to every
row.  The enrichment arguments are the left joins: `none` when the table is
absent (or lacks the `dot_number` column), otherwise the function giving
each census row its merged enrichment fields (an unmatched row's fields are
all `none`, the NaN fill of a left join). -/
def scoreTable (sms : Option (CensusRow → SmsRow)) (li : Option (CensusRow → LiRow))
    (census : List CensusRow) : List ScoredRow :=
  census.map (fun row => scoreRow (sms.map (fun j => j row)) (li.map (fun j => j row)) row)

/-- Sort key used by `sort_values('composite_score', ascending=False)`:
composites with NaN mapped to bottom, so that descending order places NaN
last (`na_position='last'`). -/
def compositeKey (r : ScoredRow) : WithBot ℚ :=
  match r.composite with
  | none => ⊥
  | some q => (q : WithBot ℚ)

end FMCALeadScorer

/-- Stable descending insertion: `x` goes in front of the first element
whose key is not greater, so earlier elements keep their place among equal
keys. -/
def insertDesc {α κ : Type} [LinearOrder κ] (key : α → κ) (x : α) : List α → List α
  | [] => [x]
  | y :: ys => if key x < key y then y :: insertDesc key x ys else x :: y :: ys

/-- Stable descending sort by a key.  This is the semantics of Python's
`sorted(..., key=key, reverse=True)`, which is documented stable with
`reverse=True` preserving the original order of equal elements. -/
def sortDesc {α κ : Type} [LinearOrder κ] (key : α → κ) : List α → List α
  | [] => []
  | x :: xs => insertDesc key x (sortDesc key xs)

namespace FMCALeadScorer

/-- Documented contract of `DataFrame.sort_values(col, ascending=False)`
with the default `kind='quicksort'`: the output is a permutation of the
input arranged in descending key order.  pandas documents only
`'mergesort'`/`'stable'` as stable sorting algorithms, so nothing further
is guaranteed about the relative order of rows with equal keys; the
embedding is therefore a relation admitting every descending
arrangement. -/
def sort_values_desc (key : ScoredRow → WithBot ℚ) (input output : List ScoredRow) : Prop :=
  output.Perm input ∧ output.Pairwise (fun a b => key b ≤ key a)

/-- Full `calculate_comprehensive_score` as a relation between the input
census table and the returned table: rows are scored by the deterministic
per-row mapping and the result is arranged by the `sort_values` call. -/
def calculate_comprehensive_score (census : List CensusRow)
    (sms : Option (CensusRow → SmsRow)) (li : Option (CensusRow → LiRow))
    (output : List ScoredRow) : Prop :=
  sort_values_desc compositeKey (scoreTable sms li census) output

/-- Census table as stored on disk: the rows' parsed values together with
which optional columns are present at all. -/
structure RawCensusTable where
  rows : List CensusRow
  has_email : Bool
  has_phone : Bool
  has_phy_city : Bool
  has_phy_state : Bool
  has_phy_zip : Bool

/-- Table-level `_calculate_contact_score`, tracking what pandas does when
a column is absent.  `census_df.get('email', '')` yields the scalar
default `''` for an absent column, and a plain Python `str` has no `.str`
accessor, so the chained `.str.strip()` raises `AttributeError`; likewise
for `phone`; the direct subscript
`census_df[['phy_city', 'phy_state', 'phy_zip']]` raises `KeyError` when
any of the three is absent.  With all columns present the per-row mapping
applies. -/
def calculate_contact_score_table (t : RawCensusTable) : Except String (List ℚ) :=
  if !t.has_email then
    .error "AttributeError: str object has no attribute str"
  else if !t.has_phone then
    .error "AttributeError: str object has no attribute str"
  else if !(t.has_phy_city && t.has_phy_state && t.has_phy_zip) then
    .error "KeyError: missing physical-address column"
  else
    match t.rows.mapM contact_score with
    | some scores => .ok scores
    | none => .error "ValueError: cannot convert NaN to integer"

/-- Column names of the census data model (identifier, descriptive, contact
and date fields) — the schema `CensusRow` embeds. -/
def census_columns : List String :=
  ["dot_number", "fleet_size", "entity_type", "carrier_operation", "email", "phone",
   "phy_city", "phy_state", "phy_zip", "cargo_carried", "add_date"]

/-- Columns of the table `calculate_comprehensive_score` returns: the two
assignments add exactly `composite_score` and `lead_tier` to the copied
census frame. -/
def scored_columns : List String :=
  census_columns ++ ["composite_score", "lead_tier"]

/-- Column subscripts evaluated by `get_scoring_summary`'s dict literal, in
evaluation order: `lead_tier` (tier breakdown), `composite_score` (mean),
`lead_tier` again (top-tier count), `growth_score` (high-growth count),
`safety_score` (poor-safety count). -/
def summary_column_accesses : List String :=
  ["lead_tier", "composite_score", "lead_tier", "growth_score", "safety_score"]

/-- `get_scoring_summary` at the level pandas evaluates it: the first
subscript of an absent column raises `KeyError` naming that column; with
all columns present the counts and the tier breakdown are computed.  The
result carries (total leads, top-tier count). -/
def get_scoring_summary (cols : List String) (rows : List ScoredRow) :
    Except String (ℕ × ℕ) :=
  match summary_column_accesses.find? (fun c => !cols.contains c) with
  | some missing => .error ("KeyError: " ++ missing)
  | none => .ok (rows.length, rows.countP (fun r => r.tier == some "Top Tier"))

end FMCALeadScorer

namespace FMCSACSVParser

/-- Delimiter logic of `parse_to_dataframe`.  The argument is the outcome
of `csv.Sniffer().sniff(sample).delimiter`: CPython raises
`csv.Error("Could not determine delimiter")` on detection failure (it never
returns an empty delimiter), modelled as `Except.error`.  The sniff call
sits inside the `try` block, so the error reaches the `except` clause,
which logs and re-raises; on success the detected delimiter is kept unless
falsy (the empty string), in which case the delimiter given at construction
is used.  The result is the delimiter actually handed to `pd.read_csv`, or
the propagated exception. -/
def parse_to_dataframe (sniffResult : Except String String) (self_delimiter : String) :
    Except String String :=
  match sniffResult with
  | .error e => .error e
  | .ok detected => .ok (if detected != "" then detected else self_delimiter)

end FMCSACSVParser

/-- Market record of `app.py`, with prices exact rationals in place of
floats. -/
structure MarketData where
  ticker : String
  title : String
  category : String
  tags : List String
  yes_bid : ℚ
  yes_ask : ℚ
  no_bid : ℚ
  no_ask : ℚ
  volume : ℤ
  volume_24h : ℤ
  open_interest : ℤ
  last_price : ℚ
deriving DecidableEq, Repr

/-- Arbitrage opportunity record of `app.py`. -/
structure ArbitrageOpportunity where
  description : String
  markets : List MarketData
  potential_profit : ℚ
  risk_level : String
  confidence_score : ℚ
deriving DecidableEq, Repr

/-- Python `s.split()`: split on whitespace runs, dropping empty pieces. -/
def pySplitWs (s : String) : List String :=
  (s.split Char.isWhitespace).filter (fun w => w != "")

namespace ArbitrageDetector

/-- Inferred series of a market:
`ticker.split('-')[0] if '-' in ticker else category`. -/
def seriesOf (m : MarketData) : String :=
  if strContains m.ticker "-" then (m.ticker.splitOn "-").headD "" else m.category

/-- Correlation score of `_calculate_correlation_score`, with each guarded
accumulation written out in the source's order. -/
def calculate_correlation_score (m1 m2 : MarketData) : ℚ :=
  let score0 : ℚ := 0
  let tag_overlap := (m1.tags.toFinset ∩ m2.tags.toFinset).card
  let total_tags := (m1.tags.toFinset ∪ m2.tags.toFinset).card
  let score1 := if total_tags ≠ 0 then score0 + ((tag_overlap : ℚ) / (total_tags : ℚ)) * 0.3 else score0
  let w1 := (pySplitWs m1.title.toLower).toFinset
  let w2 := (pySplitWs m2.title.toLower).toFinset
  let title_overlap := (w1 ∩ w2).card
  let title_union := (w1 ∪ w2).card
  let score2 := if title_union ≠ 0 then score1 + ((title_overlap : ℚ) / (title_union : ℚ)) * 0.4 else score1
  let score3 := if m1.category = m2.category then score2 + 0.2 else score2
  let score4 := if seriesOf m1 = seriesOf m2 then score3 + 0.1 else score3
  min score4 1

/-- Single-quote character, used by the f-string of the opportunity
description. -/
def squote : String := String.singleton (Char.ofNat 39)

/-- Description built by `detect_arbitrage_opportunities`:
the f-string `Arbitrage between {m1.title} and {m2.title}` with the titles
single-quoted. -/
def opportunity_description (m1 m2 : MarketData) : String :=
  "Arbitrage between " ++ squote ++ m1.title ++ squote ++ " and " ++ squote ++ m2.title ++ squote

/-- Risk tier from average 24h volume, as in the source's conditional
expression. -/
def risk_of (avg_volume : ℚ) : String :=
  if 10000 < avg_volume then "Low" else if 1000 < avg_volume then "Medium" else "High"

/-- `detect_arbitrage_opportunities`: keep each correlated pair whose last
prices sum below 0.95, build the opportunity record, and return the list
sorted by potential profit via Python's stable `sorted(..., reverse=True)`. -/
def detect_arbitrage_opportunities
    (correlated_pairs : List (MarketData × MarketData × ℚ)) : List ArbitrageOpportunity :=
  let opportunities := correlated_pairs.filterMap (fun p =>
    let m1 := p.1
    let m2 := p.2.1
    let correlation_score := p.2.2
    if m1.last_price + m2.last_price < 0.95 then
      let profit := (1 - (m1.last_price + m2.last_price)) * 100
      let avg_volume : ℚ := ((m1.volume_24h : ℚ) + (m2.volume_24h : ℚ)) / 2
      some ⟨opportunity_description m1 m2, [m1, m2], profit, risk_of avg_volume,
            min correlation_score 0.9⟩
    else none)
  sortDesc (fun o => o.potential_profit) opportunities

end ArbitrageDetector

/-- Jaccard similarity of two finite word sets, contributing 0 when the
union is empty — the building block named by the specification. -/
def jaccard (A B : Finset String) : ℚ :=
  if A ∪ B = ∅ then 0 else ((A ∩ B).card : ℚ) / ((A ∪ B).card : ℚ)

/-- Correlation score written exactly the way the specification words it:
`0.3 × (tag Jaccard) + 0.4 × (title-word Jaccard) + 0.2 × (same category)
+ 0.1 × (same series), capped at 1.0`.  This is the refinement target that
`ArbitrageDetector.calculate_correlation_score` is compared against. -/
def correlation_score_spec (m1 m2 : MarketData) : ℚ :=
  min (0.3 * jaccard m1.tags.toFinset m2.tags.toFinset
      + 0.4 * jaccard (pySplitWs m1.title.toLower).toFinset (pySplitWs m2.title.toLower).toFinset
      + (if m1.category = m2.category then 0.2 else 0)
      + (if ArbitrageDetector.seriesOf m1 = ArbitrageDetector.seriesOf m2 then 0.1 else 0)) 1

/-- Census row with every field missing: the least informative input. -/
def emptyRow : CensusRow :=
  ⟨none, none, none, none, none, none, none, none, none, none, none⟩

/-- Concrete census row used in witnesses and counterexamples. -/
def rowOne : CensusRow := { emptyRow with dot_number := some "1000001" }

/-- Second concrete census row, differing from `rowOne` only in its
identifier (hence with an identical composite score). -/
def rowTwo : CensusRow := { emptyRow with dot_number := some "1000002" }

/-- Census row with fleet size 15 and every other field missing. -/
def rowFleet : CensusRow := { emptyRow with fleet_size := some 15 }

/-- Concrete SMS enrichment row: 4 power units, 2 drivers, 100000 miles,
conditional safety rating, 10 inspections, two BASIC scores present. -/
def sampleSms : SmsRow :=
  ⟨some 4, some 2, some 100000, some "Conditional", some 10,
   [some 3, none, some 2, none, none, none]⟩

/-- Concrete market with last price 0.40 and 24h volume 1500. -/
def marketA : MarketData :=
  ⟨"PRES-DEM", "Democrat wins presidency", "Politics", ["election"],
   0, 0, 0, 0, 0, 1500, 0, 0.40⟩

/-- Concrete market with last price 0.45 and 24h volume 2500. -/
def marketB : MarketData :=
  ⟨"PRES-REP", "Republican wins presidency", "Politics", ["election"],
   0, 0, 0, 0, 0, 2500, 0, 0.45⟩

/-- Census table holding one row but stored without an `email` column. -/
def noEmailTable : FMCALeadScorer.RawCensusTable :=
  ⟨[emptyRow], false, true, true, true, true⟩

/-- The opportunity the code records for `marketA`, `marketB` at
correlation 0.7: profit `(1 − 0.85) × 100 = 15`, average 24h volume 2000
giving risk `Medium`, confidence `min(0.7, 0.9) = 0.7`. -/
def scenario_opportunity : ArbitrageOpportunity :=
  ⟨ArbitrageDetector.opportunity_description marketA marketB, [marketA, marketB],
   15, "Medium", 0.7⟩

end GoHypo

namespace GoHypo

open FMCALeadScorer

theorem fleet_scores_eq (f : ℚ) :
    fleet_scores f =
      if f < 0 then none
      else if f ≤ 1 then some 0
      else if f ≤ 5 then some 1
      else if f ≤ 10 then some 2
      else if f ≤ 20 then some 3
      else if f ≤ 50 then some 4
      else some 5 := by
  simp only [fleet_scores, pdCutInf, cutLowOk, Bool.and_eq_true, decide_eq_true_eq]
  split_ifs <;>
    first
      | rfl
      | (exfalso; linarith)
      | (exfalso;
         simp_all only [not_and, not_le, not_lt, true_implies, not_true, imp_false,
           not_false_iff, false_implies];
         try linarith)

theorem utilization_scores_eq (p d : ℚ) :
    utilization_scores p d =
      if d = 0 then (if 0 < p then some 2 else none)
      else if p / d < 0 then none
      else if p / d ≤ 3/2 then some 0
      else if p / d ≤ 2 then some 1
      else some 2 := by
  simp only [utilization_scores, pdCutInf, cutLowOk, Bool.and_eq_true, decide_eq_true_eq]
  split_ifs <;>
    first
      | rfl
      | (exfalso; linarith)
      | (exfalso;
         simp_all only [not_and, not_le, not_lt, true_implies, not_true, imp_false,
           not_false_iff, false_implies];
         try linarith)

theorem phone_cut_eq (n : ℕ) :
    pdCutInf ((n : ℚ)) true [0, 7, 10] [(0 : ℚ), 1, 2] =
      if (n : ℚ) ≤ 7 then some 0 else if (n : ℚ) ≤ 10 then some 1 else some 2 := by
  have h0 : (0 : ℚ) ≤ (n : ℚ) := Nat.cast_nonneg n
  simp only [pdCutInf, cutLowOk, Bool.and_eq_true, decide_eq_true_eq]
  split_ifs <;>
    first
      | rfl
      | (exfalso; linarith)
      | (exfalso;
         simp_all only [not_and, not_le, not_lt, true_implies, not_true, imp_false,
           not_false_iff, false_implies];
         try linarith)

theorem inspection_cut_eq (i : ℚ) (hi : 0 ≤ i) :
    pdCutInf i true [0, 20, 50] [(0 : ℚ), 1/2, 1] =
      if i ≤ 20 then some 0 else if i ≤ 50 then some (1/2) else some 1 := by
  simp only [pdCutInf, cutLowOk, Bool.and_eq_true, decide_eq_true_eq]
  split_ifs <;>
    first
      | rfl
      | (exfalso; linarith)
      | (exfalso;
         simp_all only [not_and, not_le, not_lt, true_implies, not_true, imp_false,
           not_false_iff, false_implies];
         try linarith)

theorem recency_cut_eq (d : ℤ) :
    pdCutInf d true [0, 30, 90, 365, 730] [(5 : ℚ), 4, 3, 2, 1] =
      if d < 0 then none
      else if d ≤ 30 then some 5
      else if d ≤ 90 then some 4
      else if d ≤ 365 then some 3
      else if d ≤ 730 then some 2
      else some 1 := by
  simp only [pdCutInf, cutLowOk, Bool.and_eq_true, decide_eq_true_eq]
  split_ifs <;> first | rfl | (exfalso; omega)

theorem insertDesc_perm {α κ : Type} [LinearOrder κ] (key : α → κ) (x : α) (l : List α) :
    (insertDesc key x l).Perm (x :: l) := by
  induction l with
  | nil => exact List.Perm.refl _
  | cons y ys ih =>
    simp only [insertDesc]
    split_ifs
    · exact (ih.cons y).trans (List.Perm.swap x y ys)
    · exact List.Perm.refl _

theorem insertDesc_pairwise {α κ : Type} [LinearOrder κ] (key : α → κ) (x : α) (l : List α)
    (h : l.Pairwise (fun a b => key b ≤ key a)) :
    (insertDesc key x l).Pairwise (fun a b => key b ≤ key a) := by
  induction l with
  | nil => simp [insertDesc]
  | cons y ys ih =>
    rcases List.pairwise_cons.mp h with ⟨hy, hys⟩
    simp only [insertDesc]
    split_ifs with hlt
    · refine List.pairwise_cons.mpr ⟨?_, ih hys⟩
      intro b hb
      rcases List.mem_cons.mp (((insertDesc_perm key x ys).mem_iff).mp hb) with hb | hb
      · exact hb ▸ hlt.le
      · exact hy b hb
    · refine List.pairwise_cons.mpr ⟨?_, h⟩
      intro b hb
      rcases List.mem_cons.mp hb with hb | hb
      · exact hb ▸ le_of_not_lt hlt
      · exact (hy b hb).trans (le_of_not_lt hlt)

theorem sortDesc_perm {α κ : Type} [LinearOrder κ] (key : α → κ) (l : List α) :
    (sortDesc key l).Perm l := by
  induction l with
  | nil => exact List.Perm.refl _
  | cons x xs ih => exact (insertDesc_perm key x _).trans (ih.cons x)

theorem sortDesc_pairwise {α κ : Type} [LinearOrder κ] (key : α → κ) (l : List α) :
    (sortDesc key l).Pairwise (fun a b => key b ≤ key a) := by
  induction l with
  | nil => simp [sortDesc]
  | cons x xs ih => exact insertDesc_pairwise key x _ ih

/-- C2 counterexample: the tier cut uses pandas' default right-closed,
left-open intervals, so a composite score of exactly 3.5 falls in the
interval `(2, 3.5]` and is labelled `Medium Priority`, not `High Priority`
as the claim states. -/
theorem c2_tier_boundary_counterexample :
    lead_tier (7/2) = some "Medium Priority" ∧
    lead_tier (7/2) ≠ some "High Priority" := by
  have h : lead_tier (7/2) = some "Medium Priority" := by
    simp only [lead_tier, pdCutInf, cutLowOk, Bool.and_eq_true, decide_eq_true_eq]
    norm_num
  exact ⟨h, by simp [h]⟩

/-- C2 (amended): lead-tier assignment is a pure, deterministic function of
the composite score using the four fixed cutoffs 0, 2, 3.5, 5, but with
each tier's LOWER bound exclusive and its upper bound inclusive:
`(0, 2]` maps to Low Priority, `(2, 3.5]` to Medium Priority, `(3.5, 5]`
to High Priority and `(5, ∞)` to Top Tier; in particular composite = 3.5
maps to Medium Priority, and a composite of exactly 0 receives no tier
(NaN). -/
theorem c2_lead_tier_characterization (x : ℚ) :
    lead_tier x =
      if x ≤ 0 then none
      else if x ≤ 2 then some "Low Priority"
      else if x ≤ 7/2 then some "Medium Priority"
      else if x ≤ 5 then some "High Priority"
      else some "Top Tier" := by
  simp only [lead_tier, pdCutInf, cutLowOk, Bool.and_eq_true, decide_eq_true_eq]
  split_ifs <;>
    first
      | rfl
      | (exfalso; linarith)
      | (exfalso;
         simp_all only [not_and, not_le, not_lt, true_implies, not_true, imp_false,
           not_false_iff, false_implies];
         try linarith)

theorem composite_score_eq (row : CensusRow) (sms : Option SmsRow) (li : Option LiRow)
    (g s c : ℚ)
    (hg : growth_score row sms = some g)
    (hs : safety_score row sms = some s)
    (hc : contact_score row = some c) :
    composite_score row sms li =
      some (0.25 * g + 0.20 * legitimacy_score row li + 0.20 * s + 0.15 * c
        + 0.10 * specialization_score row + 0.10 * recency_score row) := by
  simp only [composite_score, scoring_weights, component_score, List.foldl, hg, hs, hc,
    Option.bind_eq_bind, Option.some_bind]
  norm_num
  ring

/-- C1: the composite score of every scored row is the weighted sum of the
six component scores with the fixed weights growth 0.25, legitimacy 0.20,
safety 0.20, contact 0.15, specialization 0.10, recency 0.10, and those
weights sum to 1.  (The growth, safety and contact components are the ones
that can raise; the hypotheses name their values on the row.) -/
theorem c1_composite_weighted_sum (row : CensusRow) (sms : Option SmsRow) (li : Option LiRow)
    (g s c : ℚ)
    (hg : growth_score row sms = some g)
    (hs : safety_score row sms = some s)
    (hc : contact_score row = some c) :
    composite_score row sms li =
      some (0.25 * g + 0.20 * legitimacy_score row li + 0.20 * s + 0.15 * c
        + 0.10 * specialization_score row + 0.10 * recency_score row) ∧
    (scoring_weights.map Prod.snd).sum = 1 :=
  ⟨composite_score_eq row sms li g s c hg hs hc, by norm_num [scoring_weights]⟩

/-- C1 witness: the all-missing census row with no enrichment tables has
component scores growth 0, legitimacy 3, safety 3, contact 0,
specialization 1, recency 3, giving composite 1.6 by the weighted sum. -/
theorem c1_composite_weighted_sum_witness :
    composite_score emptyRow none none =
      some (0.25 * 0 + 0.20 * legitimacy_score emptyRow none + 0.20 * 3 + 0.15 * 0
        + 0.10 * specialization_score emptyRow + 0.10 * recency_score emptyRow) ∧
    (scoring_weights.map Prod.snd).sum = 1 :=
  c1_composite_weighted_sum emptyRow none none 0 3 0
    (by simp [growth_score, emptyRow, fleet_scores_eq])
    (by simp [safety_score])
    (by have he : email_valid "" = false := rfl
        simp [contact_score, emptyRow, he, pyDigits, pdCutInf, cutLowOk])


theorem fleet_scores_bounds (f : ℚ) (h : 0 ≤ f) :
    ∃ g, fleet_scores f = some g ∧ 0 ≤ g ∧ g ≤ 5 := by
  rw [fleet_scores_eq]
  split_ifs with h0
  · exact absurd h (not_le.mpr h0)
  · exact ⟨0, rfl, by norm_num⟩
  · exact ⟨1, rfl, by norm_num⟩
  · exact ⟨2, rfl, by norm_num⟩
  · exact ⟨3, rfl, by norm_num⟩
  · exact ⟨4, rfl, by norm_num⟩
  · exact ⟨5, rfl, by norm_num⟩

theorem utilization_scores_bounds (p d : ℚ) (hp : 0 ≤ p) (hd : 0 < d) :
    ∃ u, utilization_scores p d = some u ∧ 0 ≤ u ∧ u ≤ 2 := by
  rw [utilization_scores_eq, if_neg hd.ne.symm]
  have hr : 0 ≤ p / d := div_nonneg hp hd.le
  split_ifs with h0
  · exact absurd hr (not_le.mpr h0)
  · exact ⟨0, rfl, by norm_num⟩
  · exact ⟨1, rfl, by norm_num⟩
  · exact ⟨2, rfl, by norm_num⟩

theorem ite_nonneg_q (b : Prop) [Decidable b] (x y : ℚ) (hx : 0 ≤ x) (hy : 0 ≤ y) :
    0 ≤ if b then x else y := by
  split_ifs <;> assumption

theorem growth_score_bounds (row : CensusRow) (sms : Option SmsRow)
    (hf : 0 ≤ row.fleet_size.getD 0)
    (hp : ∀ s, sms = some s → 0 ≤ s.power_units.getD 0)
    (hd : ∀ s, sms = some s → 0 < s.drivers.getD 1) :
    ∃ g, growth_score row sms = some g ∧ 0 ≤ g ∧ g ≤ 5 := by
  cases sms with
  | none => exact fleet_scores_bounds _ hf
  | some s =>
    obtain ⟨g, hg, hg0, hg5⟩ := fleet_scores_bounds _ hf
    obtain ⟨u, hu, hu0, hu2⟩ :=
      utilization_scores_bounds (s.power_units.getD 0) (s.drivers.getD 1)
        (hp s rfl) (hd s rfl)
    refine ⟨min (g + u + (if (50000 : ℚ) ≤ s.vmt.getD 0 /
        (if s.power_units.getD 0 = 0 then 1 else s.power_units.getD 0) then 1 else 0)) 5,
      ?_, ?_, min_le_right _ _⟩
    · simp only [growth_score, hg, hu, Option.bind_eq_bind, Option.some_bind]
      rfl
    · refine le_min ?_ (by norm_num)
      have hv : (0 : ℚ) ≤ (if (50000 : ℚ) ≤ s.vmt.getD 0 /
          (if s.power_units.getD 0 = 0 then 1 else s.power_units.getD 0) then 1 else 0) :=
        ite_nonneg_q _ _ _ (by norm_num) (by norm_num)
      linarith

theorem legitimacy_score_bounds (row : CensusRow) (li : Option LiRow) :
    0 ≤ legitimacy_score row li ∧ legitimacy_score row li ≤ 5 := by
  cases li with
  | none =>
    exact ⟨le_min (le_max_right _ _) (by norm_num), min_le_right _ _⟩
  | some l =>
    exact ⟨le_min (le_max_right _ _) (by norm_num), min_le_right _ _⟩

theorem safety_score_bounds (row : CensusRow) (sms : Option SmsRow)
    (hi : ∀ s, sms = some s → 0 ≤ s.total_inspections.getD 0) :
    ∃ v, safety_score row sms = some v ∧ 0 ≤ v ∧ v ≤ 5 := by
  cases sms with
  | none => exact ⟨3, rfl, by norm_num⟩
  | some s =>
    have hcut := inspection_cut_eq (s.total_inspections.getD 0) (hi s rfl)
    set rating := (s.safety_rating.map String.toLower).getD "" with hr
    set ratingSc : ℚ := (if strContains rating "unsatisfactory" then 1 else 0) * 2
      + (if strContains rating "conditional" then 1 else 0) with hrs
    set present := s.basic_scores.filterMap id with hpres
    set basicMean : ℚ := if present = [] then 0 else present.sum / (present.length : ℚ) with hbm
    set basicSc : ℚ := (if 3 ≤ basicMean then 1 else 0)
      + (if 2 ≤ basicMean ∧ basicMean < 3 then 1 else 0) * (1/2) with hbs
    have h0r : 0 ≤ ratingSc := by
      rw [hrs]
      have := ite_nonneg_q (strContains rating "unsatisfactory" = true) (1 : ℚ) 0
        (by norm_num) (by norm_num)
      have := ite_nonneg_q (strContains rating "conditional" = true) (1 : ℚ) 0
        (by norm_num) (by norm_num)
      positivity
    have h0b : 0 ≤ basicSc := by
      rw [hbs]
      have := ite_nonneg_q (3 ≤ basicMean) (1 : ℚ) 0 (by norm_num) (by norm_num)
      have := ite_nonneg_q (2 ≤ basicMean ∧ basicMean < 3) (1 : ℚ) 0 (by norm_num) (by norm_num)
      positivity
    by_cases h20 : s.total_inspections.getD 0 ≤ 20
    · refine ⟨min (3 + ratingSc + basicSc + 0) 5, ?_, ?_, min_le_right _ _⟩
      · simp only [safety_score, hcut, if_pos h20, Option.bind_eq_bind, Option.some_bind]
        rfl
      · refine le_min ?_ (by norm_num)
        clear hrs hbs hcut
        clear_value ratingSc basicSc
        linarith
    · by_cases h50 : s.total_inspections.getD 0 ≤ 50
      · refine ⟨min (3 + ratingSc + basicSc + 1/2) 5, ?_, ?_, min_le_right _ _⟩
        · simp only [safety_score, hcut, if_neg h20, if_pos h50, Option.bind_eq_bind,
            Option.some_bind]
          rfl
        · refine le_min ?_ (by norm_num)
          clear hrs hbs hcut
          clear_value ratingSc basicSc
          linarith
      · refine ⟨min (3 + ratingSc + basicSc + 1) 5, ?_, ?_, min_le_right _ _⟩
        · simp only [safety_score, hcut, if_neg h20, if_neg h50, Option.bind_eq_bind,
            Option.some_bind]
          rfl
        · refine le_min ?_ (by norm_num)
          clear hrs hbs hcut
          clear_value ratingSc basicSc
          linarith


theorem phone_cut_bounds (n : ℕ) :
    ∃ p, pdCutInf ((n : ℚ)) true [0, 7, 10] [(0 : ℚ), 1, 2] = some p ∧ 0 ≤ p ∧ p ≤ 2 := by
  rw [phone_cut_eq]
  split_ifs
  · exact ⟨0, rfl, by norm_num⟩
  · exact ⟨1, rfl, by norm_num⟩
  · exact ⟨2, rfl, by norm_num⟩

theorem contact_score_bounds (row : CensusRow) :
    ∃ c, contact_score row = some c ∧ 0 ≤ c ∧ c ≤ 5 := by
  obtain ⟨p, hp, h0p, hp2⟩ := phone_cut_bounds ((row.phone.map pyDigits).getD "").length
  simp only [contact_score, hp, Option.bind_eq_bind, Option.some_bind]
  refine ⟨_, rfl, le_min ?_ (by norm_num), min_le_right _ _⟩
  have h0e : (0 : ℚ) ≤
      (if email_valid ((row.email.map String.trim).getD "") = true then (1 : ℚ) else 0) * 2
        + (if (email_valid ((row.email.map String.trim).getD "") &&
            ((row.email.map String.trim).getD "").endsWith ".com") = true
           then (1 : ℚ) else 0) * (1/2) := by
    split_ifs <;> norm_num
  have h0a : (0 : ℚ) ≤
      (([row.phy_city, row.phy_state, row.phy_zip].countP
        (fun f => f.isSome && ((f.getD "").trim != ""))) : ℚ) := by
    positivity
  linarith

theorem category_bonus_nonneg (c : String) (m : Bool) : 0 ≤ category_bonus c m := by
  unfold category_bonus
  split_ifs <;> norm_num

theorem specialization_score_bounds (row : CensusRow) :
    0 ≤ specialization_score row ∧ specialization_score row ≤ 5 := by
  refine ⟨le_min ?_ (by norm_num), min_le_right _ _⟩
  have hc : 0 ≤ (high_value_cargo.map (fun cw => category_bonus cw.1
      (containsAny ((row.cargo_carried.map String.toLower).getD "") cw.2))).sum := by
    apply List.sum_nonneg
    intro x hx
    obtain ⟨cw, -, rfl⟩ := List.mem_map.mp hx
    exact category_bonus_nonneg _ _
  have hb : (0 : ℚ) ≤
      (if strContains ((row.cargo_carried.map String.toLower).getD "") "intermodal" = true
       then (1 : ℚ) else 0) * (1/2)
        + (if strContains ((row.cargo_carried.map String.toLower).getD "") "international" = true
           then (1 : ℚ) else 0) * (1/2) := by
    split_ifs <;> norm_num
  linarith

theorem recency_score_bounds (row : CensusRow) :
    0 ≤ recency_score row ∧ recency_score row ≤ 5 := by
  rcases hday : row.days_since_registration with _ | d
  · simp only [recency_score, hday]
    constructor <;> norm_num
  · simp only [recency_score, hday, recency_cut_eq]
    split_ifs <;> simp <;> norm_num

/-- C4: for every input row, each of the six component scores lies in
`[0, 5]` — the raw sums are clipped into range — and in particular for all
fleet sizes ≥ 0 the growth component is in `[0, 5]`.  The hypotheses state
the validity of the numeric inputs each component consumes: nonnegative
fleet size (the claim's own premise), and, when an SMS row is joined,
nonnegative power units and inspection counts and a positive driver count
(a zero or negative driver or power-unit datum makes pandas produce NaN or
infinity rather than a score). -/
theorem c4_component_scores_in_range (row : CensusRow) (sms : Option SmsRow) (li : Option LiRow)
    (hf : 0 ≤ row.fleet_size.getD 0)
    (hp : ∀ s, sms = some s → 0 ≤ s.power_units.getD 0)
    (hd : ∀ s, sms = some s → 0 < s.drivers.getD 1)
    (hi : ∀ s, sms = some s → 0 ≤ s.total_inspections.getD 0) :
    (∃ g, growth_score row sms = some g ∧ 0 ≤ g ∧ g ≤ 5) ∧
    (0 ≤ legitimacy_score row li ∧ legitimacy_score row li ≤ 5) ∧
    (∃ v, safety_score row sms = some v ∧ 0 ≤ v ∧ v ≤ 5) ∧
    (∃ c, contact_score row = some c ∧ 0 ≤ c ∧ c ≤ 5) ∧
    (0 ≤ specialization_score row ∧ specialization_score row ≤ 5) ∧
    (0 ≤ recency_score row ∧ recency_score row ≤ 5) :=
  ⟨growth_score_bounds row sms hf hp hd, legitimacy_score_bounds row li,
   safety_score_bounds row sms hi, contact_score_bounds row,
   specialization_score_bounds row, recency_score_bounds row⟩

/-- C4 witness: a fleet-15 census row joined with a concrete SMS row
(4 power units, 2 drivers, 100000 miles, conditional rating,
10 inspections) has all six component scores defined and in range. -/
theorem c4_component_scores_in_range_witness :
    (∃ g, growth_score rowFleet (some sampleSms) = some g ∧ 0 ≤ g ∧ g ≤ 5) ∧
    (0 ≤ legitimacy_score rowFleet none ∧ legitimacy_score rowFleet none ≤ 5) ∧
    (∃ v, safety_score rowFleet (some sampleSms) = some v ∧ 0 ≤ v ∧ v ≤ 5) ∧
    (∃ c, contact_score rowFleet = some c ∧ 0 ≤ c ∧ c ≤ 5) ∧
    (0 ≤ specialization_score rowFleet ∧ specialization_score rowFleet ≤ 5) ∧
    (0 ≤ recency_score rowFleet ∧ recency_score rowFleet ≤ 5) :=
  c4_component_scores_in_range rowFleet (some sampleSms) none
    (by norm_num [rowFleet, emptyRow])
    (by intro s hs
        injection hs with hs
        subst hs
        norm_num [sampleSms])
    (by intro s hs
        injection hs with hs
        subst hs
        norm_num [sampleSms])
    (by intro s hs
        injection hs with hs
        subst hs
        norm_num [sampleSms])

/-- C5: when an optional enrichment table is absent (None, or lacking the
`dot_number` join column — both are the `none` argument of the embedding),
scoring does not raise and every dependent component falls back to its
documented base: safety stays at the base 3, growth is the fleet-size bin
alone, legitimacy is the clamped entity-type base, and the composite score
is defined (no exception) for every row with a valid fleet size. -/
theorem c5_missing_enrichment_fallback (row : CensusRow) (hf : 0 ≤ row.fleet_size.getD 0) :
    safety_score row none = some 3 ∧
    growth_score row none = fleet_scores (row.fleet_size.getD 0) ∧
    legitimacy_score row none = min (max (entity_base row) 0) 5 ∧
    ∃ q, composite_score row none none = some q := by
  refine ⟨rfl, rfl, rfl, ?_⟩
  obtain ⟨g, hg, -, -⟩ := fleet_scores_bounds _ hf
  obtain ⟨c, hc, -, -⟩ := contact_score_bounds row
  exact ⟨_, composite_score_eq row none none g 3 c hg rfl hc⟩

/-- C5 witness: the all-missing census row, scored without enrichment
tables, gets safety 3, growth equal to its fleet-size bin, clamped base
legitimacy, and a defined composite. -/
theorem c5_missing_enrichment_fallback_witness :
    safety_score emptyRow none = some 3 ∧
    growth_score emptyRow none = fleet_scores (emptyRow.fleet_size.getD 0) ∧
    legitimacy_score emptyRow none = min (max (entity_base emptyRow) 0) 5 ∧
    ∃ q, composite_score emptyRow none none = some q :=
  c5_missing_enrichment_fallback emptyRow (by norm_num [emptyRow])


theorem composite_rowOne_eq : composite_score rowOne none none = some (8/5) := by
  have he : email_valid "" = false := rfl
  simp [composite_score, scoring_weights, component_score, growth_score, legitimacy_score,
    safety_score, contact_score, specialization_score, recency_score, entity_base,
    fleet_scores, pdCutInf, cutLowOk, rowOne, emptyRow, he, pyDigits, strContains,
    listInfix, containsAny, high_value_cargo, category_bonus]
  norm_num

theorem composite_rowTwo_eq : composite_score rowTwo none none = some (8/5) := by
  have he : email_valid "" = false := rfl
  simp [composite_score, scoring_weights, component_score, growth_score, legitimacy_score,
    safety_score, contact_score, specialization_score, recency_score, entity_base,
    fleet_scores, pdCutInf, cutLowOk, rowTwo, emptyRow, he, pyDigits, strContains,
    listInfix, containsAny, high_value_cargo, category_bonus]
  norm_num

theorem compositeKey_rowOne :
    compositeKey (scoreRow none none rowOne) = ((8/5 : ℚ) : WithBot ℚ) := by
  simp [compositeKey, scoreRow, composite_rowOne_eq]

theorem compositeKey_rowTwo :
    compositeKey (scoreRow none none rowTwo) = ((8/5 : ℚ) : WithBot ℚ) := by
  simp [compositeKey, scoreRow, composite_rowTwo_eq]

/-- C3 counterexample: `sort_values` is called with pandas' default
`kind='quicksort'`, which pandas does not document as stable, so the sort
contract admits the tie-swapped arrangement of two rows with equal
composite scores; that admissible output differs from the stable
(input-order-preserving) descending sort the claim requires. -/
theorem c3_stability_counterexample :
    calculate_comprehensive_score [rowOne, rowTwo] none none
      [scoreRow none none rowTwo, scoreRow none none rowOne] ∧
    [scoreRow none none rowTwo, scoreRow none none rowOne] ≠
      sortDesc compositeKey (scoreTable none none [rowOne, rowTwo]) := by
  have h1 := compositeKey_rowOne
  have h2 := compositeKey_rowTwo
  have hsort : sortDesc compositeKey (scoreTable none none [rowOne, rowTwo]) =
      [scoreRow none none rowOne, scoreRow none none rowTwo] := by
    show sortDesc compositeKey
        [scoreRow none none rowOne, scoreRow none none rowTwo] = _
    simp only [sortDesc, insertDesc, h1, h2]
    rw [if_neg (lt_irrefl _)]
  constructor
  · constructor
    · exact List.Perm.swap _ _ _
    · refine List.pairwise_cons.mpr ⟨?_, List.pairwise_singleton _ _⟩
      intro b hb
      rcases List.mem_singleton.mp hb with rfl
      rw [h1, h2]
  · rw [hsort]
    intro heq
    simp only [List.cons.injEq] at heq
    simpa [scoreRow, rowOne, rowTwo, emptyRow] using
      congrArg (fun r => r.row.dot_number) heq.1

/-- C3 (amended): the table returned by `calculate_comprehensive_score` is
a permutation of the deterministically scored input rows, sorted in
descending order of composite score (NaN composites last), and such an
output always exists; the relative order of rows with EQUAL composite
scores is NOT guaranteed, because the sort uses pandas' default
(unstable) quicksort rather than a stable algorithm. -/
theorem c3_sorted_descending (census : List CensusRow)
    (sms : Option (CensusRow → SmsRow)) (li : Option (CensusRow → LiRow)) :
    calculate_comprehensive_score census sms li
      (sortDesc compositeKey (scoreTable sms li census)) ∧
    ∀ output, calculate_comprehensive_score census sms li output →
      output.Perm (scoreTable sms li census) ∧
      output.Pairwise (fun a b => compositeKey b ≤ compositeKey a) := by
  refine ⟨⟨sortDesc_perm _ _, sortDesc_pairwise _ _⟩, ?_⟩
  intro output h
  exact ⟨h.1, h.2⟩

/-- C3 witness: the amended theorem applied to a concrete singleton table
and its (only) admissible output. -/
theorem c3_sorted_descending_witness :
    ([scoreRow none none rowOne]).Perm (scoreTable none none [rowOne]) ∧
    ([scoreRow none none rowOne]).Pairwise
      (fun a b => compositeKey b ≤ compositeKey a) :=
  (c3_sorted_descending [rowOne] none none).2 [scoreRow none none rowOne]
    ⟨List.Perm.refl _, List.pairwise_singleton _ _⟩

/-- C6 counterexample: for the claimed scenario (last prices 0.40 and 0.45,
correlation 0.7) the code's confidence is `min(0.7, 0.9) = 0.7`, not the
0.63 the claim states. -/
theorem c6_confidence_counterexample :
    (ArbitrageDetector.detect_arbitrage_opportunities [(marketA, marketB, 0.7)]).map
        ArbitrageOpportunity.confidence_score = [(0.7 : ℚ)] ∧
    (0.7 : ℚ) ≠ 0.63 := by
  constructor
  · norm_num [ArbitrageDetector.detect_arbitrage_opportunities, marketA, marketB,
      List.filterMap_cons, List.filterMap_nil, sortDesc, insertDesc, min_def]
  · norm_num

/-- C6 (amended): given the correlated pair with last prices 0.40 and 0.45
(sum 0.85 < 0.95) and correlation 0.7, `detect_arbitrage_opportunities`
records exactly one opportunity with potential profit 15.0, risk tier
Medium (from the pair's average 24h volume 2000, per the > 10000 Low /
> 1000 Medium / else High rule), and confidence `min(0.7, 0.9) = 0.7`;
opportunities are always returned sorted descending by potential profit. -/
theorem c6_arbitrage_scenario :
    ArbitrageDetector.detect_arbitrage_opportunities [(marketA, marketB, 0.7)] =
      [scenario_opportunity] ∧
    ∀ pairs, (ArbitrageDetector.detect_arbitrage_opportunities pairs).Pairwise
      (fun a b => b.potential_profit ≤ a.potential_profit) := by
  constructor
  · norm_num [ArbitrageDetector.detect_arbitrage_opportunities, marketA, marketB,
      scenario_opportunity, ArbitrageDetector.risk_of, List.filterMap_cons,
      List.filterMap_nil, sortDesc, insertDesc, min_def]
  · intro pairs
    exact sortDesc_pairwise _ _

/-- C7: for every pair of markets the correlation score of the code equals
the formula of the specification: 0.3 × (Jaccard similarity of tag sets)
+ 0.4 × (Jaccard similarity of lowercased title-word sets) + 0.2 if the
categories are equal + 0.1 if the inferred series are equal, capped at
1.0, a Jaccard term contributing 0 when its union is empty. -/
theorem c7_correlation_score_formula (m1 m2 : MarketData) :
    ArbitrageDetector.calculate_correlation_score m1 m2 = correlation_score_spec m1 m2 := by
  simp only [ArbitrageDetector.calculate_correlation_score, correlation_score_spec, jaccard]
  congr 1
  by_cases h1 : m1.tags.toFinset ∪ m2.tags.toFinset = ∅ <;>
  by_cases h2 : (pySplitWs m1.title.toLower).toFinset ∪
      (pySplitWs m2.title.toLower).toFinset = ∅ <;>
  by_cases h3 : m1.category = m2.category <;>
  by_cases h4 : ArbitrageDetector.seriesOf m1 = ArbitrageDetector.seriesOf m2 <;>
    simp only [h1, h2, h3, h4, Finset.card_eq_zero, Finset.card_empty, ne_eq, ite_self,
      eq_self_iff_true, not_true, not_false_iff, not_false_eq_true, if_true, if_false,
      ite_true, ite_false] <;>
    ring

/-- C8: when CSV delimiter detection fails, CPython's `csv.Sniffer.sniff`
raises `csv.Error` rather than returning an empty delimiter, and
`parse_to_dataframe` logs and re-raises it: the file is NOT parsed with
the fallback delimiter — the falsy-delimiter fallback expression is dead
code (evidencing that falling back was the intent). -/
theorem c8_sniffer_failure_propagates :
    FMCSACSVParser.parse_to_dataframe
        (Except.error "Could not determine delimiter") "," =
      Except.error "Could not determine delimiter" ∧
    (∀ e d, FMCSACSVParser.parse_to_dataframe (Except.error e) d = Except.error e) ∧
    (∀ d, FMCSACSVParser.parse_to_dataframe (Except.ok ";") d = Except.ok ";") :=
  ⟨rfl, fun _ _ => rfl, fun _ => rfl⟩

/-- C9: scoring a census table that lacks the email column raises rather
than degrading: `census_df.get('email', '')` returns the scalar `''`, and
Python scalars have no `.str` accessor, so `_calculate_contact_score`
raises `AttributeError` — for any rows. -/
theorem c9_missing_email_column_raises :
    calculate_contact_score_table noEmailTable =
      Except.error "AttributeError: str object has no attribute str" ∧
    ∀ rows : List CensusRow,
      calculate_contact_score_table ⟨rows, false, true, true, true, true⟩ =
        Except.error "AttributeError: str object has no attribute str" :=
  ⟨rfl, fun _ => rfl⟩

/-- C10: `get_scoring_summary` applied to a table with the columns that
`calculate_comprehensive_score` returns (the census columns plus exactly
`composite_score` and `lead_tier`) raises `KeyError` on `growth_score`
for every list of rows, because the summary reads `growth_score` and
`safety_score` columns the scoring step never adds. -/
theorem c10_summary_reads_missing_columns (rows : List ScoredRow) :
    get_scoring_summary scored_columns rows = Except.error "KeyError: growth_score" ∧
    scored_columns = census_columns ++ ["composite_score", "lead_tier"] :=
  ⟨rfl, rfl⟩

end GoHypo
